import Mathlib

/-!
Verification of the img_extraction pipeline core against its specification.

Shallow embedding conventions:
* Python floats are modelled as exact rationals (ℚ); the pipeline only
  parses short decimal literals and compares them, where exact rational
  arithmetic agrees with IEEE semantics on the claims checked here.
* Python dicts produced by the services are modelled as Lean structures;
  a dict key that may be absent is modelled as an `Option` field.
* External model capabilities (YOLO, PaddleOCR, Gemini) and file system
  effects are injected as data: an `Option`/`Except` value describing the
  outcome of the single call the code makes.
-/

namespace ImgExtraction

/-! ## Models of Python string primitives used by the services -/

/-- Model of Python whitespace for `str.strip`. -/
def isWS (c : Char) : Bool := c.isWhitespace

/-- Drop trailing whitespace characters (the right half of `str.strip`). -/
def dropTrailingWS : List Char → List Char
  | [] => []
  | c :: r =>
    let r' := dropTrailingWS r
    if r'.isEmpty && isWS c then [] else c :: r'

/-- Leading and trailing whitespace removal on character lists. -/
def trimWS (l : List Char) : List Char := dropTrailingWS (l.dropWhile isWS)

/-- Model of Python `str.strip()` (no arguments): remove surrounding whitespace. -/
def pyStrip (s : String) : String := String.mk (trimWS s.toList)

/-- Model of Python `str.replace(c, "")` for a single-character pattern:
every occurrence of the character is removed. -/
def pyReplaceChar (s : String) (c : Char) : String :=
  String.mk (s.toList.filter (fun a => a != c))

/-- Numeric value of a digit list, most significant first. -/
def digitsToNat (l : List Char) : Nat :=
  l.foldl (fun a c => 10 * a + (c.toNat - 48)) 0

/-- All characters are decimal digits. -/
def allDigits (l : List Char) : Bool := l.all Char.isDigit

/-- Parse an unsigned decimal literal (`"12"`, `"12.5"`, `"12."`, `".5"`). -/
def parseUnsigned? (l : List Char) : Option ℚ :=
  match l.splitOn '.' with
  | [a] => if allDigits a && !a.isEmpty then some ((digitsToNat a : ℚ)) else none
  | [a, b] =>
    if allDigits a && allDigits b && !(a.isEmpty && b.isEmpty) then
      some ((digitsToNat a : ℚ) + (digitsToNat b : ℚ) / ((10 : ℚ) ^ b.length))
    else none
  | _ => none

/-- Parse an optionally signed decimal literal. -/
def parseSigned? : List Char → Option ℚ
  | '-' :: rest => (parseUnsigned? rest).map (fun q => -q)
  | '+' :: rest => parseUnsigned? rest
  | l => parseUnsigned? l

/-- Model of the Python builtin `float(str)` on the inputs this pipeline
feeds it: an optionally signed plain decimal literal surrounded by optional
whitespace.  Exponent, infinity, nan and underscore forms are not modelled;
none of the claims exercises them. -/
def pyFloat (s : String) : Option ℚ := parseSigned? (trimWS s.toList)

/-! ## Geometric Classifier (`ChartDetector._analyze_chart_characteristics`) -/

/-- The pixel statistics the classifier computes from a decoded image:
distinct colors of the 100x100 downsample, width/height aspect, and the
fraction of first-difference gradient magnitudes exceeding 50 along each
axis.  The PIL/numpy computation of these numbers from raw pixels is the
excluded decoding collaborator; the decision policy below is the code. -/
structure ImageStats where
  unique_colors : Nat
  aspect_ratio : ℚ
  h_density : ℚ
  v_density : ℚ
  deriving Repr, DecidableEq

/-- The `is_chart/chart_type/confidence` triple produced by the classifier. -/
structure GeoVerdict where
  is_chart : Bool
  chart_type : String
  confidence : ℚ
  deriving Repr, DecidableEq

/-- Embedding of `ChartDetector._analyze_chart_characteristics`.  `none`
models a decode failure (the `except` branch returning the zero-confidence
verdict).  The color/aspect rules assign a base verdict, and the edge
density rule afterwards overwrites all three fields when it fires. -/
def analyze_chart_characteristics (img : Option ImageStats) : GeoVerdict :=
  match img with
  | none => { is_chart := false, chart_type := "image", confidence := 0 }
  | some s =>
    let base : GeoVerdict :=
      if s.unique_colors < 50 ∧ (0.5 : ℚ) < s.aspect_ratio ∧ s.aspect_ratio < 2.5 then
        { is_chart := true, chart_type := "chart", confidence := 0.6 }
      else if s.unique_colors < 100 ∧ (0.3 : ℚ) < s.aspect_ratio ∧ s.aspect_ratio < 3.0 then
        { is_chart := true, chart_type := "graph", confidence := 0.5 }
      else
        { is_chart := false, chart_type := "image", confidence := 0.3 }
    if s.h_density > 0.05 ∧ s.v_density > 0.05 then
      { is_chart := true, chart_type := "table", confidence := 0.7 }
    else base

/-- One raw object detection `{label, confidence, bbox}`. -/
structure Detection where
  label : String
  confidence : ℚ
  bbox : List ℚ
  deriving Repr, DecidableEq

/-- The dict returned by `ChartDetector.detect`.  The source sometimes
returns a dict with no `"detections"` key at all; that absent key is
modelled as `detections = none`, a present key as `some list`. -/
structure DetectResult where
  is_chart : Bool
  chart_type : String
  confidence : ℚ
  detections : Option (List Detection)
  deriving Repr, DecidableEq

namespace ChartDetector

/-- Embedding of `ChartDetector._fallback_detection`: it returns the
analyzer's three-field dict unchanged, so no `"detections"` key exists. -/
def fallback_detection (img : Option ImageStats) : DetectResult :=
  let a := analyze_chart_characteristics img
  { is_chart := a.is_chart, chart_type := a.chart_type,
    confidence := a.confidence, detections := none }

/-- Embedding of `ChartDetector.detect`.  `model` is the injected YOLO
capability: `none` when loading failed (`self.model is None`), otherwise
the outcome of the single inference call (`Except.error` when it raised,
in which case the `except` branch falls back). -/
def detect (model : Option (Except String (List Detection)))
    (img : Option ImageStats) : DetectResult :=
  match model with
  | none => fallback_detection img
  | some (Except.error _) => fallback_detection img
  | some (Except.ok dets) =>
    let a := analyze_chart_characteristics img
    { is_chart := a.is_chart, chart_type := a.chart_type,
      confidence := a.confidence, detections := some dets }

end ChartDetector

/-! ## Text Localizer and Structurer (`OCRService`) -/

/-- One OCR box as built by `extract_text`: the recognized text, its
confidence, and the precomputed centers of its quadrilateral (the bbox
corner list itself is never read again after the centers are computed,
so it is not carried). -/
structure TextBox where
  text : String
  confidence : ℚ
  x_center : ℚ
  y_center : ℚ
  deriving Repr, DecidableEq

/-- The `structured` dict produced by `_structure_chart_text`. -/
structure StructuredChartText where
  title : Option String
  x_axis : Option String
  y_axis : Option String
  values : List String
  legends : List String
  deriving Repr, DecidableEq

/-- The all-empty structure returned for empty input (and initial
accumulator of the classification loop). -/
def emptyStructured : StructuredChartText :=
  { title := none, x_axis := none, y_axis := none, values := [], legends := [] }

/-- Python `min` over a nonempty list of floats (0 as junk value on `[]`,
which the source never reaches). -/
def listMinQ : List ℚ → ℚ
  | [] => 0
  | a :: r => r.foldl min a

/-- Python `max` over a nonempty list of floats (0 as junk value on `[]`). -/
def listMaxQ : List ℚ → ℚ
  | [] => 0
  | a :: r => r.foldl max a

namespace OCRService

/-- Embedding of `OCRService._is_numeric`: remove every occurrence of
`,`, `%`, `$`, `-`, strip whitespace, and test whether the result parses
as a float. -/
def is_numeric (text : String) : Bool :=
  let cleaned :=
    pyStrip (pyReplaceChar (pyReplaceChar (pyReplaceChar (pyReplaceChar text ',') '%') '$') '-')
  (pyFloat cleaned).isSome

/-- `min_x` over all boxes (line 112 of ocr_service.py). -/
def minX (boxes : List TextBox) : ℚ := listMinQ (boxes.map (fun b => b.x_center))

/-- `max_x` over all boxes. -/
def maxX (boxes : List TextBox) : ℚ := listMaxQ (boxes.map (fun b => b.x_center))

/-- `min_y` over all boxes. -/
def minY (boxes : List TextBox) : ℚ := listMinQ (boxes.map (fun b => b.y_center))

/-- `max_y` over all boxes. -/
def maxY (boxes : List TextBox) : ℚ := listMaxQ (boxes.map (fun b => b.y_center))

/-- `x_range = max_x - min_x if max_x > min_x else 1` (line 115). -/
def xRange (boxes : List TextBox) : ℚ :=
  if maxX boxes > minX boxes then maxX boxes - minX boxes else 1

/-- `y_range = max_y - min_y if max_y > min_y else 1` (line 114). -/
def yRange (boxes : List TextBox) : ℚ :=
  if maxY boxes > minY boxes then maxY boxes - minY boxes else 1

/-- `x_pos = (x_center - min_x) / x_range if x_range > 0 else 0.5`
(line 126).  The `else 0.5` branch is kept exactly as in the source. -/
def xPos (boxes : List TextBox) (b : TextBox) : ℚ :=
  if xRange boxes > 0 then (b.x_center - minX boxes) / xRange boxes else 0.5

/-- `y_pos = (y_center - min_y) / y_range if y_range > 0 else 0.5`
(line 125). -/
def yPos (boxes : List TextBox) (b : TextBox) : ℚ :=
  if yRange boxes > 0 then (b.y_center - minY boxes) / yRange boxes else 0.5

/-- The field a box is classified into by the if/elif chain of
`_structure_chart_text` (`dropped` = no branch taken). -/
inductive BoxField
  | title
  | xaxis
  | yaxis
  | value
  | legend
  | dropped
  deriving Repr, DecidableEq

/-- The if/elif chain of `_structure_chart_text` (lines 129-149), applied
to one box given the whole box list (which fixes the position bounds). -/
def classify (boxes : List TextBox) (b : TextBox) : BoxField :=
  let text := pyStrip b.text
  let y := yPos boxes b
  let x := xPos boxes b
  if y < 0.2 ∧ (0.3 : ℚ) < x ∧ x < 0.7 then BoxField.title
  else if y > 0.8 ∧ (0.3 : ℚ) < x ∧ x < 0.7 then BoxField.xaxis
  else if x < 0.15 ∧ (0.2 : ℚ) < y ∧ y < 0.8 then BoxField.yaxis
  else if is_numeric text then BoxField.value
  else if x > 0.7 ∨ (y > 0.7 ∧ x > 0.5) then BoxField.legend
  else BoxField.dropped

/-- `if title is None or len(text) > len(title): title = text` — keep the
longest candidate seen so far (ties keep the earlier). -/
def keepLonger (cur : Option String) (t : String) : Option String :=
  match cur with
  | none => some t
  | some c => if t.length > c.length then some t else some c

/-- The single mutation performed by the branch a box was classified
into. -/
def applyField (acc : StructuredChartText) (text : String) : BoxField → StructuredChartText
  | BoxField.title => { acc with title := keepLonger acc.title text }
  | BoxField.xaxis => { acc with x_axis := keepLonger acc.x_axis text }
  | BoxField.yaxis => { acc with y_axis := keepLonger acc.y_axis text }
  | BoxField.value => { acc with values := acc.values ++ [text] }
  | BoxField.legend => { acc with legends := acc.legends ++ [text] }
  | BoxField.dropped => acc

/-- One iteration of the classification loop: apply the matched branch's
single mutation to the accumulator. -/
def structStep (boxes : List TextBox) (acc : StructuredChartText) (b : TextBox) :
    StructuredChartText :=
  applyField acc (pyStrip b.text) (classify boxes b)

/-- Embedding of `OCRService._structure_chart_text`: empty input returns
the all-empty structure, otherwise the boxes are folded through the
classification loop.  (The `sorted_by_y`/`sorted_by_x` lists computed at
lines 104-105 of the source are never used and are omitted.) -/
def structure_chart_text (boxes : List TextBox) : StructuredChartText :=
  match boxes with
  | [] => emptyStructured
  | _ => boxes.foldl (structStep boxes) emptyStructured

end OCRService

/-- The numeric test exactly as the claim words it: text parses as a
number after stripping `,`, `%`, `$` and one leading `-`.  Written from
the spec sentence, to be compared with the source's `is_numeric`. -/
def is_numeric_spec (text : String) : Bool :=
  let stripped := text.toList.filter (fun c => !(c == ',' || c == '%' || c == '$'))
  let stripped :=
    match stripped with
    | '-' :: rest => rest
    | l => l
  (pyFloat (String.mk stripped)).isSome

/-- The amended numeric test: text parses as a number after removing all
occurrences of `,`, `%`, `$`, `-`.  Written independently of the source's
replace chain (a single character filter). -/
def is_numeric_spec_all (text : String) : Bool :=
  (pyFloat (String.mk
    (text.toList.filter (fun c => !(c == ',' || c == '%' || c == '$' || c == '-'))))).isSome

/-- How many of the five structure fields differ between two structures. -/
def fieldsChangedCount (a b : StructuredChartText) : Nat :=
  (if a.title = b.title then 0 else 1) +
  (if a.x_axis = b.x_axis then 0 else 1) +
  (if a.y_axis = b.y_axis then 0 else 1) +
  (if a.values = b.values then 0 else 1) +
  (if a.legends = b.legends then 0 else 1)

/-- Two OCR boxes sharing one x-center, used to exercise the degenerate
zero-range case of the structurer. -/
def sameColumnBoxes : List TextBox :=
  [{ text := "Hello", confidence := 1, x_center := 3, y_center := 0 },
   { text := "World", confidence := 1, x_center := 3, y_center := 10 }]

/-- A single box placed so that its normalized position is (0, 0) and its
text is non-numeric: it matches no classification rule. -/
def loneBox : TextBox :=
  { text := "Hello", confidence := 1, x_center := 5, y_center := 5 }

/-- The singleton box list around `loneBox`. -/
def loneBoxes : List TextBox := [loneBox]

/-! ## Insight Generator (`InferenceService._fallback_inference`) -/

/-- The dict returned by `OCRService.extract_text`, consumed by the
inference service as `ocr_data`. -/
structure OcrResult where
  raw_text : List String
  boxes : List TextBox
  structured : StructuredChartText
  deriving Repr, DecidableEq

/-- `v.replace(',', '').replace('%', '').replace('$', '')` — the character
stripping of the fallback's numeric loop (note: no `-` here, unlike
`_is_numeric`). -/
def stripNumChars (v : String) : String :=
  pyReplaceChar (pyReplaceChar (pyReplaceChar v ',') '%') '$'

/-- The numeric-extraction loop of `_fallback_inference`: try
`float(cleaned)` on each entry, silently skipping failures. -/
def numericValuesOf (od : OcrResult) : List ℚ :=
  od.structured.values.filterMap (fun v => pyFloat (stripNumChars v))

/-- A `{"value": .., "label": ..}` dict of the fallback extrema. -/
structure FallbackPoint where
  value : ℚ
  label : String
  deriving Repr, DecidableEq

/-- The dict returned by `_fallback_inference`. -/
structure FallbackInsight where
  trend : String
  max_point : Option FallbackPoint
  min_point : Option FallbackPoint
  correlations : List String
  anomalies : List String
  summary : String
  deriving Repr, DecidableEq

/-- Model of Python `str()` on the float values this code produces:
integral values render with a trailing `.0` (e.g. `str(20.0) = "20.0"`);
the non-integral rendering is approximated by the rational's own
rendering, which no claim inspects. -/
def pyFloatStr (q : ℚ) : String :=
  if q.den = 1 then toString q.num ++ ".0" else toString q

/-- Rendering of `structured.get('title', 'Unknown')` inside the summary
f-string: the structurer always stores the `title` key, so the stored
value is rendered, Python printing `None` for an absent title. -/
def optTitleStr : Option String → String
  | none => "None"
  | some t => t

namespace InferenceService

/-- Embedding of `InferenceService._fallback_inference` (lines 133-171 of
inference_service.py). -/
def fallback_inference (ocr_data : OcrResult) : FallbackInsight :=
  let values := ocr_data.structured.values
  let numeric_values := numericValuesOf ocr_data
  let trend :=
    if 2 ≤ numeric_values.length then
      if numeric_values.getLastD 0 > numeric_values.headD 0 then "increasing"
      else if numeric_values.getLastD 0 < numeric_values.headD 0 then "decreasing"
      else "stable"
    else "unknown"
  let extrema : Option (FallbackPoint × FallbackPoint) :=
    if 2 ≤ numeric_values.length then
      let max_val := listMaxQ numeric_values
      let min_val := listMinQ numeric_values
      some ({ value := max_val, label := pyFloatStr max_val },
            { value := min_val, label := pyFloatStr min_val })
    else none
  { trend := trend
    max_point := extrema.map (fun p => p.1)
    min_point := extrema.map (fun p => p.2)
    correlations := []
    anomalies := []
    summary := "Chart with title '" ++ optTitleStr ocr_data.structured.title ++ "' showing "
      ++ toString values.length ++ " data points. Trend appears to be " ++ trend ++ "." }

end InferenceService

/-- An OCR result whose structure carries only the given values list. -/
def ocrValues (vs : List String) : OcrResult :=
  { raw_text := [], boxes := [],
    structured := { title := none, x_axis := none, y_axis := none, values := vs, legends := [] } }

/-! ## Job Orchestrator (`process_pdf` in pdf_router.py, `process_image`
in image_router.py)

The background tasks are embedded as functions from injected stage
outcomes to the list of successive states written to the job's
`processing_status` entry (earliest first).  Every external call a stage
makes may raise in Python, so each stage outcome is `Except`-valued; an
`Except.error e` models a raised exception whose `str()` is `e`. -/

/-- One entry of `extraction["images"]` from `extract_pdf`. -/
structure ImgInfo where
  image_id : String
  image_path : String
  page_number : Nat
  deriving Repr, DecidableEq

/-- The dict returned by `extract_pdf`. -/
structure PdfExtraction where
  text : String
  total_pages : Nat
  images : List ImgInfo
  deriving Repr, DecidableEq

/-- The `OCRData` record the router builds from `ocr_result["structured"]`
(each value string is wrapped as a one-key dict in the source; the wrapper
adds no information and is dropped here). -/
structure OCRData where
  title : Option String
  x_axis : Option String
  y_axis : Option String
  values : List String
  legends : List String
  deriving Repr, DecidableEq

/-- The `InferenceResult` record the router builds from the inference
dict.  The claims never inspect these fields; the max/min points are
carried as rendered strings. -/
structure InferenceRec where
  trend : Option String
  max_point : Option String
  min_point : Option String
  correlations : List String
  anomalies : List String
  summary : String
  deriving Repr, DecidableEq

/-- One `ImageExtraction` record of the final result. -/
structure ImageExtraction where
  image_id : String
  image_path : String
  type : String
  page_number : Nat
  ocr_data : Option OCRData
  inference : Option InferenceRec
  deriving Repr, DecidableEq

/-- The `PDFExtractionResult` record (`processed_at` is the injected
`datetime.now()` rendering). -/
structure PDFExtractionResult where
  pdf_name : String
  processed_at : String
  total_pages : Nat
  extracted_text : String
  extractions : List ImageExtraction
  deriving Repr, DecidableEq

/-- One state of a job's `processing_status[task_id]` dict.
`extraction_id` is the extra key present only in the completed dict. -/
structure JobStatusRec where
  status : String
  message : String
  progress : Nat
  result : Option PDFExtractionResult
  extraction_id : Option String
  deriving Repr, DecidableEq

/-- `processing_status[task_id]["message"] = m` — a message-only write. -/
def setMsg (s : JobStatusRec) (m : String) : JobStatusRec := { s with message := m }

/-- `processing_status[task_id]["progress"] = p` — a progress-only write. -/
def setProg (s : JobStatusRec) (p : Nat) : JobStatusRec := { s with progress := p }

/-- The status dict written by the `except` handler of both routers. -/
def failedStatus (e : String) : JobStatusRec :=
  { status := "failed", message := "Error: " ++ e, progress := 0,
    result := none, extraction_id := none }

/-- The status dict written on completion by both routers. -/
def completedStatus (res : PDFExtractionResult) (sid : String) : JobStatusRec :=
  { status := "completed", message := "Processing complete", progress := 100,
    result := some res, extraction_id := some sid }

/-- Model of CPython keyword-argument binding for a call: binding raises a
TypeError when some keyword name is not among the callee's parameter
names (the only binding failure the modelled call sites can hit). -/
def pyBindKwargs (fname : String) (params : List String) (kwargs : List String) :
    Option String :=
  match kwargs.find? (fun k => !(params.contains k)) with
  | some k => some (fname ++ "() got an unexpected keyword argument: " ++ k)
  | none => none

/-- The parameter names of `generate_chart_inference` in
inference_service.py. -/
def generate_chart_inference_params : List String :=
  ["image_path", "chart_type", "ocr_data", "pdf_context"]

/-- The chart-branch `ImageExtraction` assembled by `process_pdf`. -/
def mkChartExtraction (img : ImgInfo) (det : DetectResult) (ocrRes : OcrResult)
    (inf : InferenceRec) : ImageExtraction :=
  { image_id := img.image_id, image_path := img.image_path,
    type := det.chart_type, page_number := img.page_number,
    ocr_data := some { title := ocrRes.structured.title,
                       x_axis := ocrRes.structured.x_axis,
                       y_axis := ocrRes.structured.y_axis,
                       values := ocrRes.structured.values,
                       legends := ocrRes.structured.legends },
    inference := some inf }

/-- The non-chart `ImageExtraction` assembled by `process_pdf`. -/
def mkPlainExtraction (img : ImgInfo) : ImageExtraction :=
  { image_id := img.image_id, image_path := img.image_path,
    type := "image", page_number := img.page_number,
    ocr_data := none, inference := none }

/-- The injected stage outcomes of one `process_pdf` run.  Per-image
stages are indexed by loop position (the call order is fixed by the
strictly sequential loop). -/
structure PdfEnv where
  extract : Except String PdfExtraction
  detect : Nat → Except String DetectResult
  ocr : Nat → Except String OcrResult
  infer : Nat → Except String InferenceRec
  save : Except String String
  now : String

/-- The per-image loop of `process_pdf` (lines 92-155 of pdf_router.py):
returns the status writes it performs, the status after the loop, and the
accumulated extractions (or the exception that escaped). -/
def pdfLoop (env : PdfEnv) (n : Nat) :
    Nat → List ImgInfo → JobStatusRec →
      List JobStatusRec × JobStatusRec × Except String (List ImageExtraction)
  | _, [], cur => ([], cur, Except.ok [])
  | idx, img :: rest, cur =>
    match env.detect idx with
    | Except.error e => ([], cur, Except.error e)
    | Except.ok det =>
      if det.is_chart then
        let cur1 := setMsg cur
          ("Analyzing chart " ++ toString (idx + 1) ++ "/" ++ toString n ++ "...")
        match env.ocr idx with
        | Except.error e => ([cur1], cur1, Except.error e)
        | Except.ok ocrRes =>
          match env.infer idx with
          | Except.error e => ([cur1], cur1, Except.error e)
          | Except.ok inf =>
            let cur2 := setProg cur1 (30 + 60 * (idx + 1) / n)
            let out := pdfLoop env n (idx + 1) rest cur2
            (cur1 :: cur2 :: out.1, out.2.1,
              out.2.2.map (fun es => mkChartExtraction img det ocrRes inf :: es))
      else
        let cur2 := setProg cur (30 + 60 * (idx + 1) / n)
        let out := pdfLoop env n (idx + 1) rest cur2
        (cur2 :: out.1, out.2.1,
          out.2.2.map (fun es => mkPlainExtraction img :: es))

/-- Embedding of the background task `process_pdf`: the successive states
written to the job's status entry, starting from the state `s0` the upload
endpoint initialized.  The `try/except` wrapper appends the failed status
whenever a stage raised.  The per-image `int((idx+1)/total*60)` progress is
taken as exact integer division (the float evaluation can differ by one
unit on some inputs, which no claim inspects). -/
def process_pdf (env : PdfEnv) (filename : String) (s0 : JobStatusRec) :
    List JobStatusRec :=
  let c1 := setMsg s0 ("Extracting text and images from PDF...")
  let c2 := setProg c1 10
  match env.extract with
  | Except.error e => [c1, c2, failedStatus e]
  | Except.ok ex =>
    let c3 := setProg c2 30
    let c4 := setMsg c3
      ("Found " ++ toString ex.images.length ++ " images, analyzing...")
    let out := pdfLoop env ex.images.length 0 ex.images c4
    match out.2.2 with
    | Except.error e => (c1 :: c2 :: c3 :: c4 :: out.1) ++ [failedStatus e]
    | Except.ok exts =>
      let res : PDFExtractionResult :=
        { pdf_name := filename, processed_at := env.now,
          total_pages := ex.total_pages, extracted_text := ex.text,
          extractions := exts }
      let c5 := setMsg out.2.1 ("Saving results...")
      let c6 := setProg c5 95
      match env.save with
      | Except.error e => (c1 :: c2 :: c3 :: c4 :: out.1) ++ [c5, c6, failedStatus e]
      | Except.ok sid => (c1 :: c2 :: c3 :: c4 :: out.1) ++ [c5, c6, completedStatus res sid]

/-- The first exception escaping the per-image loop, mirroring the loop's
control flow (independent of the status threading). -/
def pdfLoopError (env : PdfEnv) : Nat → List ImgInfo → Option String
  | _, [] => none
  | idx, _ :: rest =>
    match env.detect idx with
    | Except.error e => some e
    | Except.ok det =>
      if det.is_chart then
        match env.ocr idx with
        | Except.error e => some e
        | Except.ok _ =>
          match env.infer idx with
          | Except.error e => some e
          | Except.ok _ => pdfLoopError env (idx + 1) rest
      else pdfLoopError env (idx + 1) rest

/-- The first exception raised by any stage of a `process_pdf` run. -/
def pdfStageError (env : PdfEnv) : Option String :=
  match env.extract with
  | Except.error e => some e
  | Except.ok ex =>
    match pdfLoopError env 0 ex.images with
    | some e => some e
    | none =>
      match env.save with
      | Except.error e => some e
      | Except.ok _ => none

/-- The injected stage outcomes of one `process_image` run
(image_router.py).  `copy` is the `shutil.copy2` call. -/
structure ImageEnv where
  copy : Except String Unit
  detect : Except String DetectResult
  ocr : Except String OcrResult
  infer : Except String InferenceRec
  save : Except String String
  now : String

/-- Embedding of the background task `process_image` (image_router.py,
lines 77-185).  The chart branch calls `generate_chart_inference` with the
keyword argument `context`, so CPython argument binding is checked before
the injected inference outcome can be consulted. -/
def process_image (env : ImageEnv) (filename image_id target_path : String)
    (s0 : JobStatusRec) : List JobStatusRec :=
  let c1 := setMsg s0 ("Analyzing image content...")
  let c2 := setProg c1 20
  match env.copy with
  | Except.error e => [c1, c2, failedStatus e]
  | Except.ok _ =>
    match env.detect with
    | Except.error e => [c1, c2, failedStatus e]
    | Except.ok det =>
      if det.is_chart then
        let c3 := setMsg c2 ("Chart detected, running OCR and analysis...")
        let c4 := setProg c3 50
        match env.ocr with
        | Except.error e => [c1, c2, c3, c4, failedStatus e]
        | Except.ok ocrRes =>
          match pyBindKwargs ("generate_chart_inference")
              generate_chart_inference_params ["context"] with
          | some e => [c1, c2, c3, c4, failedStatus e]
          | none =>
            match env.infer with
            | Except.error e => [c1, c2, c3, c4, failedStatus e]
            | Except.ok inf =>
              let ext : ImageExtraction :=
                { image_id := image_id, image_path := target_path,
                  type := det.chart_type, page_number := 1,
                  ocr_data := some { title := ocrRes.structured.title,
                                     x_axis := ocrRes.structured.x_axis,
                                     y_axis := ocrRes.structured.y_axis,
                                     values := ocrRes.structured.values,
                                     legends := ocrRes.structured.legends },
                  inference := some inf }
              let res : PDFExtractionResult :=
                { pdf_name := filename, processed_at := env.now, total_pages := 1,
                  extracted_text := "", extractions := [ext] }
              let c5 := setMsg c4 ("Saving results...")
              let c6 := setProg c5 90
              match env.save with
              | Except.error e => [c1, c2, c3, c4, c5, c6, failedStatus e]
              | Except.ok sid => [c1, c2, c3, c4, c5, c6, completedStatus res sid]
      else
        let c3 := setMsg c2 ("Processing as generic image...")
        let ext : ImageExtraction :=
          { image_id := image_id, image_path := target_path, type := "image",
            page_number := 1, ocr_data := none, inference := none }
        let res : PDFExtractionResult :=
          { pdf_name := filename, processed_at := env.now, total_pages := 1,
            extracted_text := "", extractions := [ext] }
        let c4 := setMsg c3 ("Saving results...")
        let c5 := setProg c4 90
        match env.save with
        | Except.error e => [c1, c2, c3, c4, c5, failedStatus e]
        | Except.ok sid => [c1, c2, c3, c4, c5, completedStatus res sid]

/-- The first exception raised by any stage of a `process_image` run,
mirroring its control flow. -/
def imageStageError (env : ImageEnv) : Option String :=
  match env.copy with
  | Except.error e => some e
  | Except.ok _ =>
    match env.detect with
    | Except.error e => some e
    | Except.ok det =>
      if det.is_chart then
        match env.ocr with
        | Except.error e => some e
        | Except.ok _ =>
          match pyBindKwargs ("generate_chart_inference")
              generate_chart_inference_params ["context"] with
          | some e => some e
          | none =>
            match env.infer with
            | Except.error e => some e
            | Except.ok _ =>
              match env.save with
              | Except.error e => some e
              | Except.ok _ => none
      else
        match env.save with
        | Except.error e => some e
        | Except.ok _ => none

/-- The status entry both upload endpoints initialize before starting the
background task. -/
def initialStatus : JobStatusRec :=
  { status := "processing", message := "PDF uploaded, starting extraction...",
    progress := 0, result := none, extraction_id := none }

/-- A concrete chart verdict. -/
def witnessChartVerdict : DetectResult :=
  { is_chart := true, chart_type := "chart", confidence := 0.6, detections := none }

/-- A concrete non-chart verdict. -/
def witnessPlainVerdict : DetectResult :=
  { is_chart := false, chart_type := "image", confidence := 0.3, detections := none }

/-- A concrete empty inference record. -/
def witnessInference : InferenceRec :=
  { trend := none, max_point := none, min_point := none,
    correlations := [], anomalies := [], summary := "" }

/-- A concrete two-image extraction. -/
def witnessExtraction : PdfExtraction :=
  { text := "t", total_pages := 1,
    images := [{ image_id := "a", image_path := "pa", page_number := 1 },
               { image_id := "b", image_path := "pb", page_number := 1 }] }

/-- A two-image environment (one chart, one plain) where every stage
succeeds. -/
def witnessPdfEnv : PdfEnv :=
  { extract := Except.ok witnessExtraction,
    detect := fun idx =>
      Except.ok (if idx = 0 then witnessChartVerdict else witnessPlainVerdict),
    ocr := fun _ => Except.ok (ocrValues []),
    infer := fun _ => Except.ok witnessInference,
    save := Except.ok ("rid"),
    now := "" }

/-- A PDF environment whose extraction stage raises. -/
def failingPdfEnv : PdfEnv :=
  { extract := Except.error ("boom"),
    detect := fun _ => Except.ok witnessPlainVerdict,
    ocr := fun _ => Except.ok (ocrValues []),
    infer := fun _ => Except.ok witnessInference,
    save := Except.ok ("rid"),
    now := "" }

/-- An image environment whose detection classifies the image as a chart
and whose every injected stage succeeds. -/
def chartImageEnv : ImageEnv :=
  { copy := Except.ok (),
    detect := Except.ok witnessChartVerdict,
    ocr := Except.ok (ocrValues []),
    infer := Except.ok witnessInference,
    save := Except.ok ("rid"),
    now := "" }

/-! ## Claims about the detector -/

/-- Claim C1: whenever both edge densities exceed 0.05, the Geometric
Classifier returns `is_chart = true`, `chart_type = "table"`,
`confidence = 0.7`, for every distinct-color count and aspect ratio
(rule 4 overrides rules 1-3). -/
theorem C1_table_rule_overrides (colors : Nat) (aspect hd vd : ℚ)
    (hh : hd > 0.05) (hv : vd > 0.05) :
    analyze_chart_characteristics (some ⟨colors, aspect, hd, vd⟩) =
      { is_chart := true, chart_type := "table", confidence := 0.7 } := by
  simp [analyze_chart_characteristics, hh, hv]

/-- Witness for C1 at concrete statistics. -/
theorem C1_table_rule_overrides_witness :
    analyze_chart_characteristics (some ⟨10, 1, 0.1, 0.1⟩) =
      { is_chart := true, chart_type := "table", confidence := 0.7 } :=
  C1_table_rule_overrides 10 1 0.1 0.1 (by norm_num) (by norm_num)

/-- Claim C2: when the object-detection capability is present and its
invocation succeeds, `detect` returns exactly the Geometric Classifier's
`is_chart/chart_type/confidence` for the image; the detection output only
fills the detections list and never decides chart-ness. -/
theorem C2_detect_verdict_is_geometric (dets : List Detection) (img : Option ImageStats) :
    ChartDetector.detect (some (Except.ok dets)) img =
      { is_chart := (analyze_chart_characteristics img).is_chart,
        chart_type := (analyze_chart_characteristics img).chart_type,
        confidence := (analyze_chart_characteristics img).confidence,
        detections := some dets } := rfl

/-- Claim C8 (code-bug evidence): with the capability absent (and likewise
when its invocation raises), `detect` returns the Geometric Classifier's
verdict but the returned dict carries no `"detections"` key at all
(`detections = none`), not an empty list as the spec states.  This
contradicts `detect`'s own docstring, which promises a `detections` entry
in every returned dict. -/
theorem C8_fallback_has_no_detections_key :
    (ChartDetector.detect none (some ⟨40, 1, 0.01, 0.01⟩)).detections = none ∧
    (ChartDetector.detect (some (Except.error ("yolo failed")))
        (some ⟨40, 1, 0.01, 0.01⟩)).detections = none ∧
    (ChartDetector.detect none (some ⟨40, 1, 0.01, 0.01⟩)).is_chart = true ∧
    (ChartDetector.detect none (some ⟨40, 1, 0.01, 0.01⟩)).chart_type = "chart" ∧
    (ChartDetector.detect none (some ⟨40, 1, 0.01, 0.01⟩)).confidence = 0.6 := by
  refine ⟨rfl, rfl, ?_, ?_, ?_⟩ <;>
    norm_num [ChartDetector.detect, ChartDetector.fallback_detection,
      analyze_chart_characteristics]

/-! ## Helper lemmas -/

theorem foldl_min_const {c : ℚ} :
    ∀ (r : List ℚ) (a : ℚ), a = c → (∀ x ∈ r, x = c) → r.foldl min a = c := by
  intro r
  induction r with
  | nil => intro a ha _; simpa using ha
  | cons x t ih =>
    intro a ha hall
    simp only [List.foldl_cons]
    refine ih _ ?_ (fun y hy => hall y (by simp [hy]))
    rw [ha, hall x (by simp)]
    exact min_self c

theorem foldl_max_const {c : ℚ} :
    ∀ (r : List ℚ) (a : ℚ), a = c → (∀ x ∈ r, x = c) → r.foldl max a = c := by
  intro r
  induction r with
  | nil => intro a ha _; simpa using ha
  | cons x t ih =>
    intro a ha hall
    simp only [List.foldl_cons]
    refine ih _ ?_ (fun y hy => hall y (by simp [hy]))
    rw [ha, hall x (by simp)]
    exact max_self c

theorem listMinQ_const {c : ℚ} {l : List ℚ} (hne : l ≠ []) (hall : ∀ x ∈ l, x = c) :
    listMinQ l = c := by
  cases l with
  | nil => exact absurd rfl hne
  | cons a r =>
    simp only [listMinQ]
    exact foldl_min_const r a (hall a (by simp)) (fun y hy => hall y (by simp [hy]))

theorem listMaxQ_const {c : ℚ} {l : List ℚ} (hne : l ≠ []) (hall : ∀ x ∈ l, x = c) :
    listMaxQ l = c := by
  cases l with
  | nil => exact absurd rfl hne
  | cons a r =>
    simp only [listMaxQ]
    exact foldl_max_const r a (hall a (by simp)) (fun y hy => hall y (by simp [hy]))

/-! ## Claims about the structurer's degenerate-range positions (C7) -/

/-- Claim C7 counterexample: with two boxes sharing the x-center 3 (zero
x-range), the normalized x position of the first box is 0, not 0.5 as the
claim states: the `else 1` substitution for a zero range makes the
`else 0.5` branch unreachable. -/
theorem C7_counterexample_zero_range_pos_is_not_half :
    OCRService.xPos sameColumnBoxes
        { text := "Hello", confidence := 1, x_center := 3, y_center := 0 } = 0 ∧
    OCRService.xPos sameColumnBoxes
        { text := "Hello", confidence := 1, x_center := 3, y_center := 0 } ≠ 0.5 := by
  constructor <;>
    norm_num [OCRService.xPos, OCRService.xRange, OCRService.minX, OCRService.maxX,
      sameColumnBoxes, listMinQ, listMaxQ]

/-- Claim C7 as amended: for every nonempty list of boxes whose x-centers
are all equal, every box's normalized x position is 0 (the range is
replaced by 1 and the numerator vanishes), and symmetrically for y. -/
theorem C7_amended_zero_range_pos_is_zero :
    (∀ (bs : List TextBox) (b : TextBox), b ∈ bs →
        (∀ b1 ∈ bs, ∀ b2 ∈ bs, b1.x_center = b2.x_center) →
        OCRService.xPos bs b = 0) ∧
    (∀ (bs : List TextBox) (b : TextBox), b ∈ bs →
        (∀ b1 ∈ bs, ∀ b2 ∈ bs, b1.y_center = b2.y_center) →
        OCRService.yPos bs b = 0) := by
  constructor
  · intro bs b hb hall
    have hne : bs.map (fun b => b.x_center) ≠ [] := by
      cases bs with
      | nil => cases hb
      | cons a r => simp
    have hallm : ∀ x ∈ bs.map (fun b => b.x_center), x = b.x_center := by
      intro x hx
      rcases List.mem_map.mp hx with ⟨a, ha, rfl⟩
      exact hall a ha b hb
    have hmin : OCRService.minX bs = b.x_center := listMinQ_const hne hallm
    have hmax : OCRService.maxX bs = b.x_center := listMaxQ_const hne hallm
    have hr : OCRService.xRange bs = 1 := by
      simp [OCRService.xRange, hmin, hmax]
    simp [OCRService.xPos, hr, hmin]
  · intro bs b hb hall
    have hne : bs.map (fun b => b.y_center) ≠ [] := by
      cases bs with
      | nil => cases hb
      | cons a r => simp
    have hallm : ∀ y ∈ bs.map (fun b => b.y_center), y = b.y_center := by
      intro y hy
      rcases List.mem_map.mp hy with ⟨a, ha, rfl⟩
      exact hall a ha b hb
    have hmin : OCRService.minY bs = b.y_center := listMinQ_const hne hallm
    have hmax : OCRService.maxY bs = b.y_center := listMaxQ_const hne hallm
    have hr : OCRService.yRange bs = 1 := by
      simp [OCRService.yRange, hmin, hmax]
    simp [OCRService.yPos, hr, hmin]

/-- Witness for the amended C7 at the concrete same-column boxes. -/
theorem C7_amended_zero_range_pos_is_zero_witness :
    OCRService.xPos sameColumnBoxes
      { text := "World", confidence := 1, x_center := 3, y_center := 10 } = 0 := by
  refine C7_amended_zero_range_pos_is_zero.1 sameColumnBoxes _ (by simp [sameColumnBoxes]) ?_
  intro b1 h1 b2 h2
  simp only [sameColumnBoxes, List.mem_cons, List.mem_singleton] at h1 h2
  rcases h1 with rfl | rfl | h1 <;> rcases h2 with rfl | rfl | h2 <;> first | rfl | cases h1 | cases h2

/-! ## Claims about the numeric test (C6) -/

theorem dropTrailingWS_idem : ∀ l : List Char, dropTrailingWS (dropTrailingWS l) = dropTrailingWS l := by
  intro l
  induction l with
  | nil => rfl
  | cons c r ih =>
    by_cases h : ((dropTrailingWS r).isEmpty && isWS c) = true
    · simp [dropTrailingWS, h]
    · simp [dropTrailingWS, h, ih]

theorem dropTrailingWS_head? (l : List Char) :
    dropTrailingWS l = [] ∨ (dropTrailingWS l).head? = l.head? := by
  cases l with
  | nil => exact Or.inl rfl
  | cons c r =>
    by_cases h : ((dropTrailingWS r).isEmpty && isWS c) = true
    · exact Or.inl (by simp [dropTrailingWS, h])
    · exact Or.inr (by simp [dropTrailingWS, h])

theorem head_not_ws_of_dropWhile_eq {c : Char} {r : List Char}
    (hl : (c :: r).dropWhile isWS = c :: r) : isWS c = false := by
  by_cases h : isWS c = true
  · rw [List.dropWhile_cons, if_pos h] at hl
    have h1 : (r.dropWhile isWS).length ≤ r.length := (List.dropWhile_sublist isWS).length_le
    rw [hl] at h1
    simp only [List.length_cons] at h1
    omega
  · simpa using h

theorem trimWS_idem (l : List Char) : trimWS (trimWS l) = trimWS l := by
  unfold trimWS
  have hA : (l.dropWhile isWS).dropWhile isWS = l.dropWhile isWS :=
    List.dropWhile_idempotent isWS l
  have hXd : (dropTrailingWS (l.dropWhile isWS)).dropWhile isWS
      = dropTrailingWS (l.dropWhile isWS) := by
    rcases dropTrailingWS_head? (l.dropWhile isWS) with h0 | hh
    · rw [h0]; rfl
    · cases hXc : dropTrailingWS (l.dropWhile isWS) with
      | nil => rfl
      | cons c r =>
        rw [hXc] at hh
        cases hY : l.dropWhile isWS with
        | nil => rw [hY] at hh; simp at hh
        | cons d t =>
          rw [hY] at hh
          simp only [List.head?_cons, Option.some.injEq] at hh
          have hA' : (d :: t).dropWhile isWS = d :: t := by rw [← hY]; exact hA
          have hd : isWS d = false := head_not_ws_of_dropWhile_eq hA'
          subst hh
          rw [List.dropWhile_cons, if_neg (by simp [hd])]
  rw [hXd, dropTrailingWS_idem]

theorem pyFloat_pyStrip (s : String) : pyFloat (pyStrip s) = pyFloat s := by
  show parseSigned? (trimWS (trimWS s.toList)) = parseSigned? (trimWS s.toList)
  rw [trimWS_idem]

theorem replaceChain_toList (text : String) :
    (pyReplaceChar (pyReplaceChar (pyReplaceChar (pyReplaceChar text ',') '%') '$') '-').toList
      = text.toList.filter (fun c => !(c == ',' || c == '%' || c == '$' || c == '-')) := by
  show ((((text.toList.filter (fun a => a != ',')).filter (fun a => a != '%')).filter
      (fun a => a != '$')).filter (fun a => a != '-')) = _
  rw [List.filter_filter, List.filter_filter, List.filter_filter]
  refine List.filter_congr ?_
  intro a _
  cases h1 : a == ',' <;> cases h2 : a == '%' <;> cases h3 : a == '$' <;> cases h4 : a == '-' <;>
    simp [bne, h1, h2, h3, h4]

/-- Claim C6 counterexample: `"1-2"` is classified numeric by the source's
`_is_numeric` (the replace chain removes the interior `-`, leaving `"12"`),
yet it does not parse as a number after stripping `,`, `%`, `$` and only a
leading `-`, so the claim's iff fails at this input. -/
theorem C6_counterexample_interior_dash :
    OCRService.is_numeric ("1-2") = true ∧ is_numeric_spec ("1-2") = false := by
  constructor <;> decide

/-- Claim C6 as amended: a string is classified numeric by `_is_numeric`
exactly when it parses as a number after removing every occurrence of
`,`, `%`, `$`, `-` (not only a leading `-`); the empty string is not
numeric, `"1,234.5%"` is numeric and `"N/A"` is not. -/
theorem C6_amended_numeric_iff_strip_all :
    (∀ text : String, OCRService.is_numeric text = is_numeric_spec_all text) ∧
    OCRService.is_numeric ("1,234.5%") = true ∧
    OCRService.is_numeric ("N/A") = false ∧
    OCRService.is_numeric ("") = false := by
  refine ⟨?_, by decide, by decide, by decide⟩
  intro text
  show (pyFloat (pyStrip _)).isSome = (pyFloat (String.mk _)).isSome
  rw [pyFloat_pyStrip]
  have h : pyFloat
        (pyReplaceChar (pyReplaceChar (pyReplaceChar (pyReplaceChar text ',') '%') '$') '-')
      = pyFloat (String.mk
          (text.toList.filter (fun c => !(c == ',' || c == '%' || c == '$' || c == '-')))) := by
    simp only [pyFloat]
    rw [replaceChain_toList]
    rfl
  rw [h]

/-! ## Claims about the structurer's field exclusivity (C9) -/

theorem foldl_structStep_values (bs : List TextBox) :
    ∀ (l : List TextBox) (acc : StructuredChartText),
      (l.foldl (OCRService.structStep bs) acc).values
        = acc.values ++ (l.filter (fun b =>
            OCRService.classify bs b == OCRService.BoxField.value)).map
              (fun b => pyStrip b.text) := by
  intro l
  induction l with
  | nil => intro acc; simp
  | cons x t ih =>
    intro acc
    simp only [List.foldl_cons]
    rw [ih]
    cases h : OCRService.classify bs x <;>
      simp [OCRService.structStep, h, OCRService.applyField, List.filter_cons]

theorem foldl_structStep_legends (bs : List TextBox) :
    ∀ (l : List TextBox) (acc : StructuredChartText),
      (l.foldl (OCRService.structStep bs) acc).legends
        = acc.legends ++ (l.filter (fun b =>
            OCRService.classify bs b == OCRService.BoxField.legend)).map
              (fun b => pyStrip b.text) := by
  intro l
  induction l with
  | nil => intro acc; simp
  | cons x t ih =>
    intro acc
    simp only [List.foldl_cons]
    rw [ih]
    cases h : OCRService.classify bs x <;>
      simp [OCRService.structStep, h, OCRService.applyField, List.filter_cons]

theorem classify_loneBox :
    OCRService.classify loneBoxes loneBox = OCRService.BoxField.dropped := by
  have hnum : OCRService.is_numeric (pyStrip ("Hello")) = false := by decide
  norm_num [OCRService.classify, OCRService.xPos, OCRService.yPos, OCRService.xRange,
    OCRService.yRange, OCRService.minX, OCRService.maxX, OCRService.minY, OCRService.maxY,
    loneBoxes, loneBox, listMinQ, listMaxQ, hnum]

/-- Claim C9: in `_structure_chart_text` every input box contributes to at
most one of the five fields: each loop iteration changes at most one field
of the accumulator (the branches are mutually exclusive, applied in
first-match order), a box matching no rule leaves the accumulator
untouched, and the values/legends lists are exactly the in-order texts of
the boxes classified into those branches. -/
theorem C9_each_box_contributes_at_most_once :
    (∀ (bs : List TextBox) (acc : StructuredChartText) (b : TextBox),
        fieldsChangedCount (OCRService.structStep bs acc b) acc ≤ 1) ∧
    (∀ (bs : List TextBox) (acc : StructuredChartText) (b : TextBox),
        OCRService.classify bs b = OCRService.BoxField.dropped →
        OCRService.structStep bs acc b = acc) ∧
    (∀ bs : List TextBox,
      (OCRService.structure_chart_text bs).values
        = (bs.filter (fun b =>
            OCRService.classify bs b == OCRService.BoxField.value)).map
              (fun b => pyStrip b.text) ∧
      (OCRService.structure_chart_text bs).legends
        = (bs.filter (fun b =>
            OCRService.classify bs b == OCRService.BoxField.legend)).map
              (fun b => pyStrip b.text)) := by
  refine ⟨?_, ?_, ?_⟩
  · intro bs acc b
    cases h : OCRService.classify bs b <;>
      simp only [OCRService.structStep, h, OCRService.applyField, fieldsChangedCount] <;>
      simp <;> split <;> simp
  · intro bs acc b h
    simp [OCRService.structStep, h, OCRService.applyField]
  · intro bs
    cases bs with
    | nil => exact ⟨rfl, rfl⟩
    | cons a t =>
      constructor
      · show ((a :: t).foldl (OCRService.structStep (a :: t)) emptyStructured).values = _
        rw [foldl_structStep_values]
        simp [emptyStructured]
      · show ((a :: t).foldl (OCRService.structStep (a :: t)) emptyStructured).legends = _
        rw [foldl_structStep_legends]
        simp [emptyStructured]

/-- Witness for C9 at a concrete box list, discharging the dropped-box
hypothesis at `loneBox`. -/
theorem C9_each_box_contributes_at_most_once_witness :
    fieldsChangedCount (OCRService.structStep loneBoxes emptyStructured loneBox)
        emptyStructured ≤ 1 ∧
    OCRService.structStep loneBoxes emptyStructured loneBox = emptyStructured ∧
    (OCRService.structure_chart_text loneBoxes).values
      = (loneBoxes.filter (fun b =>
          OCRService.classify loneBoxes b == OCRService.BoxField.value)).map
            (fun b => pyStrip b.text) :=
  ⟨C9_each_box_contributes_at_most_once.1 loneBoxes emptyStructured loneBox,
   C9_each_box_contributes_at_most_once.2.1 loneBoxes emptyStructured loneBox classify_loneBox,
   (C9_each_box_contributes_at_most_once.2.2 loneBoxes).1⟩

/-! ## Claims about the fallback insight (C3) -/

/-- Claim C3: the deterministic fallback, when at least two values parse
as floats after stripping `,`, `%`, `$`, sets the trend by comparing the
last parsed value with the first and sets the extrema dicts to the numeric
maximum/minimum with their string labels; with fewer than two parsed
values the trend is `unknown` and the extrema are unset.  In particular
`values = ["10", "20"]` gives an increasing trend with extrema 20.0/10.0,
and `values = ["5"]` gives an unknown trend with no extrema. -/
theorem C3_fallback_trend_and_extrema :
    (∀ (od : OcrResult) (f l : ℚ),
      (numericValuesOf od).head? = some f →
      (numericValuesOf od).getLast? = some l →
      2 ≤ (numericValuesOf od).length →
      (InferenceService.fallback_inference od).trend
          = (if l > f then "increasing" else if l < f then "decreasing" else "stable") ∧
      (InferenceService.fallback_inference od).max_point
          = some { value := listMaxQ (numericValuesOf od),
                   label := pyFloatStr (listMaxQ (numericValuesOf od)) } ∧
      (InferenceService.fallback_inference od).min_point
          = some { value := listMinQ (numericValuesOf od),
                   label := pyFloatStr (listMinQ (numericValuesOf od)) }) ∧
    (∀ od : OcrResult,
      (numericValuesOf od).length < 2 →
      (InferenceService.fallback_inference od).trend = "unknown" ∧
      (InferenceService.fallback_inference od).max_point = none ∧
      (InferenceService.fallback_inference od).min_point = none) ∧
    (InferenceService.fallback_inference (ocrValues ["10", "20"])).trend = "increasing" ∧
    (InferenceService.fallback_inference (ocrValues ["10", "20"])).max_point
        = some { value := 20, label := "20.0" } ∧
    (InferenceService.fallback_inference (ocrValues ["10", "20"])).min_point
        = some { value := 10, label := "10.0" } ∧
    (InferenceService.fallback_inference (ocrValues ["5"])).trend = "unknown" ∧
    (InferenceService.fallback_inference (ocrValues ["5"])).max_point = none ∧
    (InferenceService.fallback_inference (ocrValues ["5"])).min_point = none := by
  refine ⟨?_, ?_, by decide, by decide, by decide, by decide, by decide, by decide⟩
  · intro od f l hf hl h2
    have hhd : (numericValuesOf od).head?.getD 0 = f := by rw [hf]; rfl
    have hlast : (numericValuesOf od).getLast?.getD 0 = l := by rw [hl]; rfl
    refine ⟨?_, ?_, ?_⟩ <;>
      simp [InferenceService.fallback_inference, h2, hhd, hlast]
  · intro od h2
    have h2' : ¬ (2 ≤ (numericValuesOf od).length) := by omega
    refine ⟨?_, ?_, ?_⟩ <;>
      simp [InferenceService.fallback_inference, h2']

/-- Witness for C3, applying the general statement at `["10", "20"]`. -/
theorem C3_fallback_trend_and_extrema_witness :
    (InferenceService.fallback_inference (ocrValues ["10", "20"])).trend = "increasing" ∧
    (InferenceService.fallback_inference (ocrValues ["5"])).max_point = none := by
  constructor
  · have h := (C3_fallback_trend_and_extrema.1 (ocrValues ["10", "20"]) 10 20
      (by decide) (by decide) (by decide)).1
    rw [h]
    norm_num
  · exact (C3_fallback_trend_and_extrema.2.1 (ocrValues ["5"]) (by decide)).2.1

/-! ## Orchestrator helper lemmas -/

theorem setMsg_progress (s : JobStatusRec) (m : String) : (setMsg s m).progress = s.progress := rfl

theorem setProg_progress (s : JobStatusRec) (p : Nat) : (setProg s p).progress = p := rfl

theorem setMsg_result (s : JobStatusRec) (m : String) : (setMsg s m).result = s.result := rfl

theorem setProg_result (s : JobStatusRec) (p : Nat) : (setProg s p).result = s.result := rfl

theorem setMsg_status (s : JobStatusRec) (m : String) : (setMsg s m).status = s.status := rfl

theorem setProg_status (s : JobStatusRec) (p : Nat) : (setProg s p).status = s.status := rfl

theorem exceptMap_error_iff {α β : Type} (f : α → β) (x : Except String α) (e : String) :
    x.map f = Except.error e ↔ x = Except.error e := by
  cases x <;> simp [Except.map]

theorem bindContext_eq :
    pyBindKwargs ("generate_chart_inference") generate_chart_inference_params ["context"]
      = some ("generate_chart_inference() got an unexpected keyword argument: context") := by
  decide

theorem getLast?_append_three {α : Type} (l : List α) (a b c : α) :
    (l ++ [a, b, c]).getLast? = some c := by
  rw [show l ++ [a, b, c] = (l ++ [a, b]) ++ [c] by simp]
  exact List.getLast?_concat _

theorem final_prog_le (n : Nat) : 30 + 60 * n / n ≤ 95 := by
  cases n with
  | zero => simp
  | succ k =>
    have h : 60 * (k + 1) / (k + 1) = 60 := Nat.mul_div_cancel 60 (by omega)
    omega

theorem pdfLoop_error_iff (env : PdfEnv) (n : Nat) :
    ∀ (imgs : List ImgInfo) (idx : Nat) (cur : JobStatusRec) (e : String),
      (pdfLoop env n idx imgs cur).2.2 = Except.error e ↔
        pdfLoopError env idx imgs = some e := by
  intro imgs
  induction imgs with
  | nil =>
    intro idx cur e
    simp [pdfLoop, pdfLoopError]
  | cons img rest ih =>
    intro idx cur e
    cases hd : env.detect idx with
    | error e0 => simp [pdfLoop, pdfLoopError, hd]
    | ok det =>
      cases hc : det.is_chart with
      | true =>
        cases ho : env.ocr idx with
        | error e0 => simp [pdfLoop, pdfLoopError, hd, hc, ho]
        | ok o =>
          cases hi : env.infer idx with
          | error e0 => simp [pdfLoop, pdfLoopError, hd, hc, ho, hi]
          | ok i => simp [pdfLoop, pdfLoopError, hd, hc, ho, hi, exceptMap_error_iff, ih]
      | false => simp [pdfLoop, pdfLoopError, hd, hc, exceptMap_error_iff, ih]

theorem pdfLoop_progress (env : PdfEnv) (n : Nat) :
    ∀ (imgs : List ImgInfo) (idx : Nat) (cur : JobStatusRec),
      pdfLoopError env idx imgs = none →
      idx + imgs.length = n →
      cur.progress = 30 + 60 * idx / n →
      List.Chain' (fun a b => a ≤ b)
        (cur.progress :: (pdfLoop env n idx imgs cur).1.map (fun st => st.progress)) ∧
      (pdfLoop env n idx imgs cur).2.1.progress = 30 + 60 * n / n ∧
      (cur.progress :: (pdfLoop env n idx imgs cur).1.map (fun st => st.progress)).getLast?
        = some ((pdfLoop env n idx imgs cur).2.1.progress) := by
  intro imgs
  induction imgs with
  | nil =>
    intro idx cur _ hlen hcur
    have hidx : idx = n := by simpa using hlen
    subst hidx
    exact ⟨by simp [pdfLoop], by simpa [pdfLoop] using hcur, by simp [pdfLoop]⟩
  | cons img rest ih =>
    intro idx cur herr hlen hcur
    have hstep : 30 + 60 * idx / n ≤ 30 + 60 * (idx + 1) / n := by
      have hmul : 60 * idx ≤ 60 * (idx + 1) := by omega
      exact Nat.add_le_add_left (Nat.div_le_div_right hmul) 30
    have hlen' : (idx + 1) + rest.length = n := by
      simp only [List.length_cons] at hlen
      omega
    cases hd : env.detect idx with
    | error e0 => simp [pdfLoopError, hd] at herr
    | ok det =>
      cases hc : det.is_chart with
      | true =>
        cases ho : env.ocr idx with
        | error e0 => simp [pdfLoopError, hd, hc, ho] at herr
        | ok o =>
          cases hi : env.infer idx with
          | error e0 => simp [pdfLoopError, hd, hc, ho, hi] at herr
          | ok i =>
            have herr' : pdfLoopError env (idx + 1) rest = none := by
              simpa [pdfLoopError, hd, hc, ho, hi] using herr
            simp only [pdfLoop, hd, hc, ho, hi, if_true]
            have hrec := ih (idx + 1)
              (setProg (setMsg cur
                ("Analyzing chart " ++ toString (idx + 1) ++ "/" ++ toString n ++ "..."))
                (30 + 60 * (idx + 1) / n))
              herr' hlen' (by simp [setProg_progress])
            refine ⟨?_, hrec.2.1, ?_⟩
            · simp only [List.map_cons, setMsg_progress, setProg_progress]
              rw [List.chain'_cons, List.chain'_cons]
              refine ⟨le_refl _, ?_, ?_⟩
              · rw [hcur]; exact hstep
              · have hch := hrec.1
                simp only [setMsg_progress, setProg_progress] at hch
                exact hch
            · simp only [List.map_cons, List.getLast?_cons_cons]
              have hgl := hrec.2.2
              simp only [setMsg_progress, setProg_progress] at hgl ⊢
              exact hgl
      | false =>
        have herr' : pdfLoopError env (idx + 1) rest = none := by
          simpa [pdfLoopError, hd, hc] using herr
        simp only [pdfLoop, hd, hc, if_false, Bool.false_eq_true]
        have hrec := ih (idx + 1)
          (setProg cur (30 + 60 * (idx + 1) / n))
          herr' hlen' (by simp [setProg_progress])
        refine ⟨?_, hrec.2.1, ?_⟩
        · simp only [List.map_cons, setProg_progress]
          rw [List.chain'_cons]
          refine ⟨?_, ?_⟩
          · rw [hcur]; exact hstep
          · have hch := hrec.1
            simp only [setProg_progress] at hch
            exact hch
        · simp only [List.map_cons, List.getLast?_cons_cons]
          have hgl := hrec.2.2
          simp only [setProg_progress] at hgl ⊢
          exact hgl

/-! ## Claims about the orchestrators (C4, C5, C10) -/

/-- Claim C4: if any stage of a job raises an unhandled exception, the
orchestrator's `except` handler writes a terminal status with
state `failed`, progress 0, a message containing the exception's
description (`"Error: " ++ str(e)`), and no result — for both the PDF and
the standalone-image background tasks; the exception never escapes the
task (the embedded task is a total function into a status trace). -/
theorem C4_unhandled_fault_sets_failed_status :
    (∀ (env : PdfEnv) (filename : String) (s0 : JobStatusRec) (e : String),
      pdfStageError env = some e →
      (process_pdf env filename s0).getLast? = some (failedStatus e) ∧
      (failedStatus e).status = "failed" ∧
      (failedStatus e).progress = 0 ∧
      (failedStatus e).message = "Error: " ++ e ∧
      (failedStatus e).result = none) ∧
    (∀ (env : ImageEnv) (filename image_id target_path : String)
        (s0 : JobStatusRec) (e : String),
      imageStageError env = some e →
      (process_image env filename image_id target_path s0).getLast?
        = some (failedStatus e)) := by
  constructor
  · intro env fn s0 e he
    refine ⟨?_, rfl, rfl, rfl, rfl⟩
    cases hx : env.extract with
    | error e0 =>
      have he' : e0 = e := by simpa [pdfStageError, hx] using he
      subst he'
      simp [process_pdf, hx]
    | ok ex =>
      cases hle : pdfLoopError env 0 ex.images with
      | some e0 =>
        have he' : e0 = e := by simpa [pdfStageError, hx, hle] using he
        subst he'
        have hl : (pdfLoop env ex.images.length 0 ex.images
            (setMsg (setProg (setProg
                (setMsg s0 ("Extracting text and images from PDF...")) 10) 30)
              ("Found " ++ toString ex.images.length ++ " images, analyzing..."))).2.2
            = Except.error e0 :=
          (pdfLoop_error_iff env ex.images.length ex.images 0 _ e0).mpr hle
        simp only [process_pdf, hx, hl]
        exact List.getLast?_concat _
      | none =>
        cases hs : env.save with
        | error e0 =>
          have he' : e0 = e := by simpa [pdfStageError, hx, hle, hs] using he
          subst he'
          cases hrec : (pdfLoop env ex.images.length 0 ex.images
              (setMsg (setProg (setProg
                  (setMsg s0 ("Extracting text and images from PDF...")) 10) 30)
                ("Found " ++ toString ex.images.length ++ " images, analyzing..."))).2.2 with
          | error e1 =>
            have h2 := (pdfLoop_error_iff env ex.images.length ex.images 0 _ e1).mp hrec
            rw [hle] at h2
            cases h2
          | ok exts =>
            simp only [process_pdf, hx, hrec, hs]
            exact getLast?_append_three _ _ _ _
        | ok sid => simp [pdfStageError, hx, hle, hs] at he
  · intro env fn iid tp s0 e he
    cases hcp : env.copy with
    | error e0 =>
      have he' : e0 = e := by simpa [imageStageError, hcp] using he
      subst he'
      simp [process_image, hcp]
    | ok u =>
      cases hdet : env.detect with
      | error e0 =>
        have he' : e0 = e := by simpa [imageStageError, hcp, hdet] using he
        subst he'
        simp [process_image, hcp, hdet]
      | ok det =>
        cases hc : det.is_chart with
        | true =>
          cases ho : env.ocr with
          | error e0 =>
            have he' : e0 = e := by simpa [imageStageError, hcp, hdet, hc, ho] using he
            subst he'
            simp [process_image, hcp, hdet, hc, ho]
          | ok ocrRes =>
            have he' : ("generate_chart_inference() got an unexpected keyword argument: context") = e := by
              simpa [imageStageError, hcp, hdet, hc, ho, bindContext_eq] using he
            subst he'
            simp [process_image, hcp, hdet, hc, ho, bindContext_eq]
        | false =>
          cases hs : env.save with
          | error e0 =>
            have he' : e0 = e := by simpa [imageStageError, hcp, hdet, hc, hs] using he
            subst he'
            simp [process_image, hcp, hdet, hc, hs]
          | ok sid => simp [imageStageError, hcp, hdet, hc, hs] at he

/-- Witness for C4: the extraction stage of `failingPdfEnv` raises, and
the terminal status is the failed record. -/
theorem C4_unhandled_fault_sets_failed_status_witness :
    (process_pdf failingPdfEnv ("f.pdf") initialStatus).getLast?
      = some (failedStatus ("boom")) :=
  (C4_unhandled_fault_sets_failed_status.1 failingPdfEnv ("f.pdf") initialStatus
    ("boom") rfl).1

/-- Claim C5: for a standalone image upload whose image is chart-classified
(copy, detection and OCR behave normally and `is_chart` is true), the
`generate_chart_inference` call site in `process_image` passes the keyword
argument `context` while the callee's parameter is named `pdf_context`, so
CPython argument binding raises a TypeError before the inference capability
is ever consulted; the job therefore terminates failed with no result, and
no status along the trace is `completed` or carries a result. -/
theorem C5_standalone_chart_upload_always_fails :
    ∀ (env : ImageEnv) (filename image_id target_path : String) (s0 : JobStatusRec)
      (det : DetectResult) (ocrRes : OcrResult),
      env.copy = Except.ok () →
      env.detect = Except.ok det →
      det.is_chart = true →
      env.ocr = Except.ok ocrRes →
      s0.result = none →
      s0.status = "processing" →
      (process_image env filename image_id target_path s0).getLast?
          = some (failedStatus
              ("generate_chart_inference() got an unexpected keyword argument: context")) ∧
      ∀ st ∈ process_image env filename image_id target_path s0,
        st.result = none ∧ st.status ≠ "completed" := by
  intro env fn iid tp s0 det ocrRes hcp hdet hchart hocr hres hstat
  have htrace : process_image env fn iid tp s0
      = [setMsg s0 ("Analyzing image content..."),
         setProg (setMsg s0 ("Analyzing image content...")) 20,
         setMsg (setProg (setMsg s0 ("Analyzing image content...")) 20)
           ("Chart detected, running OCR and analysis..."),
         setProg (setMsg (setProg (setMsg s0 ("Analyzing image content...")) 20)
           ("Chart detected, running OCR and analysis...")) 50,
         failedStatus
           ("generate_chart_inference() got an unexpected keyword argument: context")] := by
    simp [process_image, hcp, hdet, hchart, hocr, bindContext_eq]
  rw [htrace]
  constructor
  · simp
  · intro st hst
    simp only [List.mem_cons, List.not_mem_nil, or_false] at hst
    rcases hst with rfl | rfl | rfl | rfl | rfl <;>
      exact ⟨by simp [setMsg_result, setProg_result, failedStatus, hres],
             by simp [setMsg_status, setProg_status, failedStatus, hstat]⟩

/-- Witness for C5 at a concrete chart-classified image environment. -/
theorem C5_standalone_chart_upload_always_fails_witness :
    (process_image chartImageEnv ("f.png") ("iid") ("tp") initialStatus).getLast?
      = some (failedStatus
          ("generate_chart_inference() got an unexpected keyword argument: context")) :=
  (C5_standalone_chart_upload_always_fails chartImageEnv ("f.png") ("iid") ("tp")
    initialStatus witnessChartVerdict (ocrValues []) rfl rfl rfl rfl rfl rfl).1

/-- Claim C10: for every PDF job in which no stage raises, the sequence of
progress values written to the job's status entry (starting from the
upload-initialized progress 0) is monotonically non-decreasing and the
terminal progress value is 100. -/
theorem C10_progress_monotone_and_completes_at_100 :
    ∀ (env : PdfEnv) (filename : String) (s0 : JobStatusRec),
      s0.progress = 0 →
      pdfStageError env = none →
      List.Chain' (fun a b => a ≤ b)
        ((process_pdf env filename s0).map (fun st => st.progress)) ∧
      ((process_pdf env filename s0).map (fun st => st.progress)).getLast? = some 100 := by
  intro env fn s0 h0 he
  cases hx : env.extract with
  | error e => simp [pdfStageError, hx] at he
  | ok ex =>
    cases hle : pdfLoopError env 0 ex.images with
    | some e => simp [pdfStageError, hx, hle] at he
    | none =>
      cases hs : env.save with
      | error e => simp [pdfStageError, hx, hle, hs] at he
      | ok sid =>
        have hprog := pdfLoop_progress env ex.images.length ex.images 0
          (setMsg (setProg (setProg
              (setMsg s0 ("Extracting text and images from PDF...")) 10) 30)
            ("Found " ++ toString ex.images.length ++ " images, analyzing..."))
          hle (by omega) (by simp [setMsg_progress, setProg_progress])
        cases hrec : (pdfLoop env ex.images.length 0 ex.images
            (setMsg (setProg (setProg
                (setMsg s0 ("Extracting text and images from PDF...")) 10) 30)
              ("Found " ++ toString ex.images.length ++ " images, analyzing..."))).2.2 with
        | error e1 =>
          have h2 := (pdfLoop_error_iff env ex.images.length ex.images 0 _ e1).mp hrec
          rw [hle] at h2
          cases h2
        | ok exts =>
          simp only [process_pdf, hx, hrec, hs]
          constructor
          · rw [List.map_append, List.chain'_append]
            refine ⟨?_, ?_, ?_⟩
            · simp only [List.map_cons, setMsg_progress, setProg_progress, h0]
              rw [List.chain'_cons, List.chain'_cons, List.chain'_cons]
              have hch := hprog.1
              simp only [setMsg_progress, setProg_progress] at hch
              exact ⟨by omega, by omega, by omega, hch⟩
            · simp only [List.map_cons, List.map_nil, setMsg_progress, setProg_progress,
                completedStatus]
              rw [List.chain'_cons, List.chain'_cons]
              refine ⟨?_, by omega, List.chain'_singleton _⟩
              rw [hprog.2.1]
              exact final_prog_le _
            · intro x hx2 y hy
              simp only [List.map_cons, List.map_nil, List.head?_cons, Option.mem_def,
                Option.some.injEq, setMsg_progress] at hy
              have hgl := hprog.2.2
              simp only [setMsg_progress, setProg_progress] at hgl
              simp only [List.map_cons, setMsg_progress, setProg_progress,
                List.getLast?_cons_cons, hgl, Option.mem_def, Option.some.injEq] at hx2
              subst hx2
              rw [← hy]
          · rw [List.map_append]
            exact getLast?_append_three _ _ _ _

/-- Witness for C10 at the concrete two-image all-success environment. -/
theorem C10_progress_monotone_and_completes_at_100_witness :
    List.Chain' (fun a b => a ≤ b)
      ((process_pdf witnessPdfEnv ("f.pdf") initialStatus).map (fun st => st.progress)) ∧
    ((process_pdf witnessPdfEnv ("f.pdf") initialStatus).map
        (fun st => st.progress)).getLast? = some 100 :=
  C10_progress_monotone_and_completes_at_100 witnessPdfEnv ("f.pdf") initialStatus
    rfl (by decide)

end ImgExtraction
